import Mathlib

/-!
Verification development for the UrbanSenseAI task-orchestration core.

The TypeScript sources are shallowly embedded: pure logic becomes Lean
functions, browser/provider effects (camera capture, Gemini calls, speech
synthesis/recognition) become oracle parameters or explicit events, and the
React component state of `App.tsx` becomes explicit state records driven by a
step function over user/provider events.  JavaScript `undefined`/falsy values
are modelled with `Option String` plus explicit truthiness helpers.

`App.tsx` (and several other files) exist in two variants in the repository;
the plain variant is embedded with the suffix `V1`, the documented variant
(the one defining `runAnalysis`/`handleTaskClick`) with the suffix `V2`.
-/

/-- `AssistanceTask` from `types.ts`: the closed enum of tasks. -/
inductive ATask
  | findBus
  | crossRoad
  | explore
  | findShop
deriving DecidableEq, Repr

/-- The `LANGUAGES` array of `App.tsx`: the three supported locales. -/
inductive Lang
  | enUS
  | hiIN
  | esES
deriving DecidableEq, Repr

/-- The `code` field of a `LANGUAGES` entry. -/
def Lang.code : Lang → String
  | Lang.enUS => "en-US"
  | Lang.hiIN => "hi-IN"
  | Lang.esES => "es-ES"

/-- The `name` field of a `LANGUAGES` entry in the plain `App.tsx` variant. -/
def Lang.displayName : Lang → String
  | Lang.enUS => "English"
  | Lang.hiIN => "Hindi"
  | Lang.esES => "Spanish"

/-- JavaScript truthiness of a `string | undefined | null` value:
`undefined`, `null` and the empty string are falsy. -/
def jsTruthyOpt : Option String → Bool
  | none => false
  | some s => s != ""

/-! ## Substring containment (JavaScript `String.prototype.includes`) -/

/-- Boolean substring containment on character lists: `containsSeq pat l`
holds iff `pat` occurs contiguously inside `l`.  This models the
`lowerCaseCommand.includes(...)` checks of `handleVoiceCommand`. -/
def containsSeq (pat : List Char) : List Char → Bool
  | [] => pat.isEmpty
  | c :: rest => pat.isPrefixOf (c :: rest) || containsSeq pat rest

/-- JavaScript `toLowerCase` followed by conversion to a character list.
The command keywords are ASCII, for which `Char.toLower` agrees with the
JavaScript case folding. -/
def jsToLowerChars (s : String) : List Char := s.toList.map Char.toLower

/-- `String.prototype.includes` on strings. -/
def jsIncludes (s pat : String) : Bool := containsSeq pat.toList s.toList

/-! ## Trimming and its irrelevance for keyword containment -/

/-- Whitespace predicate used by the spec-side `trim`. -/
def wsChar (c : Char) : Bool := c.isWhitespace

/-- Trim whitespace from both ends of a character list (JavaScript
`String.prototype.trim`). -/
def trimChars (l : List Char) : List Char :=
  ((l.dropWhile wsChar).reverse.dropWhile wsChar).reverse

/-! ## Voice command resolution (`handleVoiceCommand` in `App.tsx`) -/

/-- The ordered keyword rules of `handleVoiceCommand`: `bus` → FindBus,
`cross`/`road` → CrossRoad, `explore`/`around` → Explore,
`shop`/`store` → FindShop; first match wins, no match gives `none`. -/
def matchVoiceRules (l : List Char) : Option ATask :=
  if containsSeq "bus".toList l then some ATask.findBus
  else if containsSeq "cross".toList l || containsSeq "road".toList l then some ATask.crossRoad
  else if containsSeq "explore".toList l || containsSeq "around".toList l then some ATask.explore
  else if containsSeq "shop".toList l || containsSeq "store".toList l then some ATask.findShop
  else none

/-- The code's resolver: lowercases the transcript (no trim) and applies the
ordered rules. -/
def resolveVoiceCommand (command : String) : Option ATask :=
  matchVoiceRules (jsToLowerChars command)

/-- Spec-side resolver for the refinement comparison: the matching policy as
the spec words it, case-folding AND trimming the transcript before the
ordered substring matching. -/
def resolveVoiceCommandSpec (command : String) : Option ATask :=
  matchVoiceRules (trimChars (jsToLowerChars command))

/-! ## Static text from `constants.ts` (the variant imported by both `App.tsx`
variants: separate `TASK_LABELS`, GPS-aware base instruction, `MOCK_RESPONSES`) -/

/-- `baseSystemInstruction` from `constants.ts`. -/
def baseSystemInstruction : String :=
  "You are UrbanSenseAI, a helpful assistant for visually impaired individuals. Your user is pointing their phone camera at their surroundings. Your response will be read aloud, so it must be clear, concise, and descriptive. Focus on safety and awareness. Describe objects and their relative positions (e.g., \x27to your left\x27, \x27in front of you\x27, \x2710 meters away\x27). Do not use markdown or formatting in your response. If GPS coordinates are provided, use them to add geographical context, like identifying street names if signs are visible."

/-- The task-specific tail appended to `baseSystemInstruction` in each
`TASK_PROMPTS` entry (the template literal inserts a single space between). -/
def taskPromptTail : ATask → String
  | ATask.findBus =>
    " Look for a bus in the image. If you see one, read its number and any destination text clearly. You MUST estimate its distance in meters or feet and its location relative to the user (e.g., \x27approaching on your right\x27). For example: \x27Bus number 42 to Downtown is about 20 meters away and approaching on your right.\x27 If no bus is visible, state \x27I do not see a bus.\x27"
  | ATask.crossRoad =>
    " Analyze the intersection for crossing a road. Look for pedestrian signals (walk/don\x27t walk signs), traffic lights, and vehicles. Announce the status of the signal. Describe any approaching or stopped vehicles, including their location and estimated distance. For example: \x27The pedestrian sign shows a green walk signal. It is safe to cross. There is a blue car stopped about 15 meters away on your left.\x27 or \x27The pedestrian sign is red. Do not cross. A red car is approaching from your left, about 30 meters away.\x27"
  | ATask.explore =>
    " Describe the general scene to give me situational awareness. For all key objects you identify (like benches, doors, obstacles), you MUST estimate their distance in meters or feet and their direction relative to the user. For example: \x27You are on a sidewalk next to a park. There is a bench about 3 meters in front of you and a trash can to your immediate right.\x27"
  | ATask.findShop =>
    " Scan the image for any shopfronts or business signs. If the user is looking for a specific type of shop, prioritize that in your search. Read the names of any shops you can identify, and you MUST estimate their distance and direction. For example: \x27I see a sign for a pharmacy about 10 meters ahead and to your right.\x27 If you cannot identify any shops, state \x27I do not see any shop signs.\x27"

/-- `TASK_PROMPTS[task].prompt` from `constants.ts`. -/
def taskPrompt (t : ATask) : String := baseSystemInstruction ++ taskPromptTail t

/-- `TASK_LABELS` from `constants.ts`. -/
def taskLabel : Lang → ATask → String
  | Lang.enUS, ATask.findBus => "Find Bus"
  | Lang.enUS, ATask.crossRoad => "Cross Road"
  | Lang.enUS, ATask.explore => "Explore"
  | Lang.enUS, ATask.findShop => "Find Shop"
  | Lang.hiIN, ATask.findBus => "बस ढूंढें"
  | Lang.hiIN, ATask.crossRoad => "सड़क पार करें"
  | Lang.hiIN, ATask.explore => "अन्वेषण करें"
  | Lang.hiIN, ATask.findShop => "दुकान ढूंढें"
  | Lang.esES, ATask.findBus => "Buscar Bus"
  | Lang.esES, ATask.crossRoad => "Cruzar Calle"
  | Lang.esES, ATask.explore => "Explorar"
  | Lang.esES, ATask.findShop => "Buscar Tienda"

/-- `MOCK_RESPONSES` from `constants.ts`. -/
def mockResponses : ATask → String
  | ATask.findBus => "I see bus number 123 to \x27City Center\x27 arriving on your right in about 15 meters."
  | ATask.crossRoad => "The pedestrian signal is green, it is safe to cross. A blue car is waiting on your left."
  | ATask.explore => "You are on a sidewalk next to a park. There is a bench 5 meters in front of you and a trash can to your right."
  | ATask.findShop => "I can see a \x27Corner Coffee Shop\x27 about 20 meters ahead and to your left."

/-! ## UI strings of the plain `App.tsx` variant (`UI_STRINGS`) -/

/-- `UI_STRINGS[code].welcome`. -/
def uiWelcome : Lang → String
  | Lang.enUS => "Session started. Tap a task or use the voice command button."
  | Lang.hiIN => "सत्र शुरू हो गया है। किसी कार्य पर टैप करें या वॉयस कमांड बटन का उपयोग करें।"
  | Lang.esES => "Sesión iniciada. Toque una tarea o use el botón de comando de voz."

/-- `UI_STRINGS[code].analyzing(label)`. -/
def uiAnalyzing : Lang → String → String
  | Lang.enUS, label => "Analyzing for: " ++ label ++ "..."
  | Lang.hiIN, label => label ++ " के लिए विश्लेषण किया जा रहा है..."
  | Lang.esES, label => "Analizando para: " ++ label ++ "..."

/-- `UI_STRINGS[code].iHeard(command)`. -/
def uiIHeard : Lang → String → String
  | Lang.enUS, c => "I heard: \"" ++ c ++ "\""
  | Lang.hiIN, c => "मैंने सुना: \"" ++ c ++ "\""
  | Lang.esES, c => "Escuché: \"" ++ c ++ "\""

/-- `UI_STRINGS[code].commandSorry`: the unrecognized-command message. -/
def uiUnrecognizedMsg : Lang → String
  | Lang.enUS => "Sorry, I didn\x27t recognize that command. Please say \x27find bus\x27, \x27cross road\x27, \x27explore\x27, or \x27find shop\x27."
  | Lang.hiIN => "क्षमा करें, मुझे वह आदेश समझ नहीं आया। कृपया \x27find bus\x27, \x27cross road\x27, \x27explore\x27, या \x27find shop\x27 कहें।"
  | Lang.esES => "Lo siento, no reconocí ese comando. Por favor, di \x27find bus\x27, \x27cross road\x27, \x27explore\x27, o \x27find shop\x27."

/-- `UI_STRINGS[code].listening`. -/
def uiListeningMsg : Lang → String
  | Lang.enUS => "Listening for a command..."
  | Lang.hiIN => "एक कमांड की प्रतीक्षा है..."
  | Lang.esES => "Escuchando un comando..."

/-! ## UI strings of the documented `App.tsx` variant (`UI_STRINGS`, keyed) -/

/-- `UI_STRINGS[code]['status_initializing']`. -/
def statusInitializingV2 : Lang → String
  | Lang.enUS => "Initializing..."
  | Lang.hiIN => "शुरू हो रहा है..."
  | Lang.esES => "Inicializando..."

/-- `UI_STRINGS[code]['status_ready']`. -/
def statusReadyV2 : Lang → String
  | Lang.enUS => "Ready. Select a task."
  | Lang.hiIN => "तैयार। एक कार्य चुनें।"
  | Lang.esES => "Listo. Seleccione una tarea."

/-- `UI_STRINGS[code]['status_processing']`. -/
def statusProcessingV2 : Lang → String
  | Lang.enUS => "Analyzing..."
  | Lang.hiIN => "विश्लेषण हो रहा है..."
  | Lang.esES => "Analizando..."

/-- `UI_STRINGS[code]['status_listening']`. -/
def statusListeningV2 : Lang → String
  | Lang.enUS => "Listening..."
  | Lang.hiIN => "सुन रहा है..."
  | Lang.esES => "Escuchando..."

/-- `UI_STRINGS[code]['shop_prompt']`. -/
def shopPromptV2 : Lang → String
  | Lang.enUS => "What kind of shop are you looking for?"
  | Lang.hiIN => "आप किस तरह की दुकान ढूंढ रहे हैं?"
  | Lang.esES => "¿Qué tipo de tienda estás buscando?"

/-! ## `geminiService.ts` — analysis client with three strategies

JavaScript exceptions are modelled with `Except Exn`: a service function that
can only resolve (never reject) always returns `Except.ok`.  The value
channel is `Option String` because `callApiFromServerless` returns
`result.text`, which is `undefined` when the parsed body has no `text` field.
-/

/-- A thrown JavaScript value: `isError` records whether it is an `Error`
instance (`instanceof Error`), `msg` its message. -/
structure Exn where
  isError : Bool
  msg : String
deriving DecidableEq, Repr

/-- A `GenerateContentResponse` as consumed by the service: only its `text`
accessor matters; `none` models `undefined`. -/
structure GenResponse where
  text : Option String
deriving DecidableEq, Repr

/-- The parsed JSON body of a fetch response: `malformed` models
`response.json()` throwing (malformed or empty body), `parsed` a successful
parse with optional `error` and `text` fields. -/
inductive JsonBody
  | malformed (isError : Bool) (parseMsg : String)
  | parsed (errorField : Option String) (textField : Option String)
deriving DecidableEq, Repr

/-- Outcome of `fetch('/.netlify/functions/analyzeImage', ...)`:
either the fetch promise rejects (network failure), or a response with an
HTTP status and a body arrives. -/
inductive FetchOutcome
  | networkFailure (isError : Bool) (msg : String)
  | got (status : Nat) (body : JsonBody)
deriving DecidableEq, Repr

/-- The environment of `analyzeImageWithGemini`: Vite build flags and the two
effectful collaborators (direct Gemini SDK call, serverless fetch), as
oracles indexed by the request data. -/
structure GeminiEnv where
  isDev : Bool
  viteApiKey : Option String
  clientCall : String → String → String → Except Exn GenResponse
  fetchFn : String → String → FetchOutcome

/-- `Response.ok`: status in the inclusive range 200–299. -/
def respOk (status : Nat) : Bool := 200 ≤ status && status ≤ 299

/-- The message extracted from a caught value:
`error instanceof Error ? error.message : 'Unknown error'`. -/
def exnDisplay (isError : Bool) (msg : String) : String :=
  if isError then msg else "Unknown error"

/-- `result.error || 'fallback'`: JavaScript `||` treats a missing or empty
`error` field as falsy. -/
def jsOrDefault (o : Option String) (d : String) : String :=
  match o with
  | some s => if s = "" then d else s
  | none => d

def emptyRespMsg : String := "The AI service returned an empty response. Please try again."

def genericClientErrMsg : String :=
  "An error occurred while calling the Gemini API. Check the console for details."

def invalidKeyMsg : String :=
  "The local API key is invalid or has insufficient permissions. Please check your .env file."

def serverCommHead : String := "An error occurred while communicating with the server: "

/-- `getMockResponse` (without the 1.5 s simulated delay): the canned
per-task text prefixed with `(Mock Response) `.  The `|| 'unknown task'`
fallback in the source is dead code because `MOCK_RESPONSES` is total. -/
def getMockResponse (task : ATask) : String :=
  "(Mock Response) " ++ mockResponses task

/-- `callApiFromClient`: the direct (dev-only) strategy.  The whole body is
wrapped in try/catch, so it always resolves to a string: an empty/absent
`response.text` becomes `emptyRespMsg`; a thrown `Error` whose message
mentions `API key` or `permission` becomes `invalidKeyMsg`; any other throw
becomes `genericClientErrMsg`. -/
def callApiFromClient (call : Except Exn GenResponse) : Except Exn (Option String) :=
  match call with
  | Except.ok resp =>
    match resp.text with
    | none => Except.ok (some emptyRespMsg)
    | some t => if t = "" then Except.ok (some emptyRespMsg) else Except.ok (some t)
  | Except.error e =>
    if e.isError && (jsIncludes e.msg "API key" || jsIncludes e.msg "permission") then
      Except.ok (some invalidKeyMsg)
    else
      Except.ok (some genericClientErrMsg)

/-- `callApiFromServerless`: the proxied strategy.  `response.json()` runs
before the `ok` check; a non-ok response throws `Error(result.error || ...)`
which the catch turns into the generic server-communication string; an ok
response returns `result.text` as-is (possibly `undefined`). -/
def callApiFromServerless (outcome : FetchOutcome) : Except Exn (Option String) :=
  match outcome with
  | FetchOutcome.networkFailure isErr m =>
    Except.ok (some (serverCommHead ++ exnDisplay isErr m))
  | FetchOutcome.got status body =>
    match body with
    | JsonBody.malformed pErr pMsg =>
      Except.ok (some (serverCommHead ++ exnDisplay pErr pMsg))
    | JsonBody.parsed errF textF =>
      if respOk status then Except.ok textF
      else Except.ok (some (serverCommHead ++
        jsOrDefault errF "Failed to fetch from serverless function."))

/-- `analyzeImageWithGemini`: mock mode first; then, in a dev build with a
truthy `VITE_API_KEY`, the direct client call; otherwise (production, or dev
without a key) the serverless proxy. -/
def analyzeImageWithGemini (env : GeminiEnv) (base64Image prompt : String)
    (task : ATask) (isMockMode : Bool) : Except Exn (Option String) :=
  if isMockMode then Except.ok (some (getMockResponse task))
  else if env.isDev && jsTruthyOpt env.viteApiKey then
    callApiFromClient (env.clientCall base64Image prompt (env.viteApiKey.getD ""))
  else
    callApiFromServerless (env.fetchFn base64Image prompt)

/-- The three interchangeable analysis strategies. -/
inductive Strategy
  | mock
  | direct
  | proxied
deriving DecidableEq, Repr

/-- Strategy resolution as a pure function of
(mock-mode flag, deployment context, credential presence). -/
def selectStrategy (isMockMode : Bool) (isDev : Bool) (viteApiKey : Option String) : Strategy :=
  if isMockMode then Strategy.mock
  else if isDev && jsTruthyOpt viteApiKey then Strategy.direct
  else Strategy.proxied

/-! ## `netlify/functions/analyzeImage.ts` — the trusted intermediary -/

/-- The parse of `JSON.parse(event.body || '{}')` plus field extraction:
`malformed` models the parse throwing, `fields` the extracted
`base64Image`/`prompt` values (absent fields are `none`). -/
inductive HandlerBody
  | malformed (isError : Bool) (parseMsg : String)
  | fields (base64Image : Option String) (prompt : Option String)
deriving DecidableEq, Repr

def handlerKeyMsg : String :=
  "The AI service API key is invalid or missing. Please check the application configuration."

def handlerGenericMsg : String :=
  "An error occurred while processing the image with the AI service."

/-- The catch block of the handler: extract the message, specialize when it
mentions `API key`. -/
def handlerCatchMsg (isErr : Bool) (m : String) : String :=
  if jsIncludes (if isErr then m else "An unknown internal error occurred.") "API key" then
    handlerKeyMsg
  else handlerGenericMsg

/-- The handler of `analyzeImage.ts` as a function from (HTTP method, parsed
body, Gemini call outcome) to (status, `error` field, `text` field). -/
def handlerModel (method : String) (body : HandlerBody)
    (gen : Except Exn GenResponse) : Nat × Option String × Option String :=
  if method != "POST" then (405, some "Method Not Allowed", none)
  else
    match body with
    | HandlerBody.malformed pErr pMsg => (500, some (handlerCatchMsg pErr pMsg), none)
    | HandlerBody.fields img prompt =>
      if !jsTruthyOpt img || !jsTruthyOpt prompt then
        (400, some "Missing base64Image or prompt in request body", none)
      else
        match gen with
        | Except.error e => (500, some (handlerCatchMsg e.isError e.msg), none)
        | Except.ok resp =>
          match resp.text with
          | none => (500, some "The AI service returned an empty response.", none)
          | some t =>
            if t = "" then (500, some "The AI service returned an empty response.", none)
            else (200, none, some t)

/-- Well-formedness of a fetch outcome as it can arise from the network layer
in front of the intermediary: if an ok-status parsed body arrives, it carries
a `text` field.  (Network failures and malformed bodies are allowed.) -/
def fetch200HasText : FetchOutcome → Bool
  | FetchOutcome.got st (JsonBody.parsed _ textF) => !respOk st || textF.isSome
  | _ => true

/-! ## `useTextToSpeech.ts` — the speech-output engine (`speak`)

The promise-returning variant is modelled.  `TTS.current` is the in-flight
utterance (by id); `ttsSpeak` returns the new engine state, the synchronous
result of the call (guard rejection or started), and the resolution that the
`cancel()` delivered to a previously in-flight `speak` promise (the browser
fires an `interrupted` error event at the cancelled utterance, which the
`onerror` handler resolves as a non-error completion). -/

structure TTS where
  supported : Bool
  current : Option Nat
deriving DecidableEq, Repr

inductive SpeakCallRes
  | rejectedGuard
  | started
deriving DecidableEq, Repr

/-- Terminal event of an utterance: natural end, or an error event carrying
the error code. -/
inductive UttEvent
  | ended
  | errored (error : String)
deriving DecidableEq, Repr

/-- How the `speak` promise resolves for a terminal utterance event:
`onend` resolves; `onerror` with `interrupted` resolves (benign); any other
error rejects with a reportable message. -/
def utteranceOutcome : UttEvent → Except String Unit
  | UttEvent.ended => Except.ok ()
  | UttEvent.errored e =>
    if e = "interrupted" then Except.ok ()
    else Except.error ("Speech synthesis error: " ++ e)

/-- One call of `speak(text, lang)`: the guard clause rejects (without
cancelling) when synthesis is unsupported or the text is empty; otherwise
`speechSynthesis.cancel()` interrupts any in-flight utterance (resolving its
promise) and the new utterance becomes current. -/
def ttsSpeak (engine : TTS) (text : String) (uttId : Nat) :
    TTS × SpeakCallRes × Option (Except String Unit) :=
  if engine.supported = false || text = "" then (engine, SpeakCallRes.rejectedGuard, none)
  else
    ({ engine with current := some uttId }, SpeakCallRes.started,
      engine.current.map (fun _ => utteranceOutcome (UttEvent.errored "interrupted")))

/-! ## Observable actions of the orchestrator

Each orchestrator step emits the provider invocations it performs, in order:
`speakCall` a `speak(text, langCode)` call, `speakFinished` the completion
signal of the currently speaking utterance, `listenStart` a
`startListening()` call, `analyzeCall` an `analyzeImageWithGemini` dispatch. -/
inductive Act
  | speakCall (text : String) (langCode : String)
  | speakFinished
  | listenStart
  | analyzeCall (image : String) (prompt : String) (task : ATask) (mock : Bool)
deriving DecidableEq, Repr

/-! ## Orchestrator, plain `App.tsx` variant (V1)

State fields mirror the `useState` hooks (`isProcessing`, `error`,
`lastResponse`, `isSettingsOpen`) and the hook-owned flags (`isSpeaking`,
`isListening`).  `phase` records where the async `handleTaskSelect` flow is
suspended (`analyzing` = awaiting `analyzeImageWithGemini`).  Events model
user input and provider callbacks; the capture result is supplied with the
triggering event because `captureFrame()` is read synchronously inside the
handler. -/

structure ConfigV1 where
  lang : Lang
  isMockMode : Bool
deriving DecidableEq, Repr

inductive PhaseV1
  | idle
  | analyzing (task : ATask)
deriving DecidableEq, Repr

structure StV1 where
  isProcessing : Option ATask
  isSpeaking : Bool
  isListening : Bool
  error : String
  lastResponse : String
  isSettingsOpen : Bool
  phase : PhaseV1
deriving DecidableEq, Repr

def initV1 : StV1 :=
  { isProcessing := none, isSpeaking := false, isListening := false,
    error := "", lastResponse := "", isSettingsOpen := false, phase := PhaseV1.idle }

/-- Line 194 of the plain `App.tsx`:
`!!isProcessing || isSpeaking || isListening || !!error || isSettingsOpen`. -/
def anyActionInProgressV1 (s : StV1) : Bool :=
  s.isProcessing.isSome || s.isSpeaking || s.isListening || (s.error != "") || s.isSettingsOpen

def captureErrMsgV1 : String := "Could not capture an image from the camera."

/-- A fire-and-forget `speak(text, langCode)` from the plain variant's hook:
no promise; the guard clause ignores empty text, otherwise the utterance
starts and `isSpeaking` becomes true. -/
def speakFFV1 (s : StV1) (text : String) (lang : Lang) : StV1 × List Act :=
  if text = "" then (s, [])
  else ({ s with isSpeaking := true }, [Act.speakCall text lang.code])

/-- The prompt composed by `handleTaskSelect`:
the task prompt plus ` Please respond in ${currentLang.name}.`. -/
def promptV1 (cfg : ConfigV1) (task : ATask) : String :=
  taskPrompt task ++ " Please respond in " ++ cfg.lang.displayName ++ "."

/-- `handleTaskSelect(task)` up to its first suspension point: guard on
`isProcessing || isSpeaking`; clear `error`; set `isProcessing`; announce and
speak the analyzing text; capture; on falsy capture with mock mode off, set
and speak the capture error and reset `isProcessing`; otherwise dispatch
`analyzeImageWithGemini(base64Image || '', prompt, task, isMockMode)`. -/
def taskSelectV1 (cfg : ConfigV1) (s : StV1) (task : ATask) (cap : Option String) :
    StV1 × List Act :=
  if s.isProcessing.isSome || s.isSpeaking then (s, [])
  else
    let analyzingText := uiAnalyzing cfg.lang (taskLabel cfg.lang task)
    let s1 := { s with error := "", isProcessing := some task, lastResponse := analyzingText }
    let p1 := speakFFV1 s1 analyzingText cfg.lang
    if !jsTruthyOpt cap && !cfg.isMockMode then
      let s2 := { p1.1 with error := captureErrMsgV1, lastResponse := captureErrMsgV1 }
      let p2 := speakFFV1 s2 captureErrMsgV1 cfg.lang
      ({ p2.1 with isProcessing := none, phase := PhaseV1.idle }, p1.2 ++ p2.2)
    else
      ({ p1.1 with phase := PhaseV1.analyzing task },
        p1.2 ++ [Act.analyzeCall (cap.getD "") (promptV1 cfg task) task cfg.isMockMode])

inductive EvV1
  | buttonClick (task : ATask) (cap : Option String)
  | heard (transcript : String) (cap : Option String)
  | analysisDone (result : String)
  | speakEnd
  | speechError (msg : String)
deriving DecidableEq, Repr

/-- One orchestrator step of the plain variant.

* `buttonClick`: an `ActionButton` tap — the button is disabled while
  `anyActionInProgress`, so a disabled tap is a no-op; otherwise
  `handleTaskSelect` runs.
* `heard`: `handleVoiceCommand(transcript)` from a recognition result; the
  recognition hook clears `isListening` after the callback.
* `analysisDone`: the awaited `analyzeImageWithGemini` promise resolves;
  `handleTaskSelect` resumes: show and speak the result, reset
  `isProcessing`.
* `speakEnd`: the current utterance ends (`onend`).
* `speechError`: the `speechError` effect — set `error`, show and speak it. -/
def stepV1 (cfg : ConfigV1) (s : StV1) : EvV1 → StV1 × List Act
  | EvV1.buttonClick task cap =>
    if anyActionInProgressV1 s then (s, []) else taskSelectV1 cfg s task cap
  | EvV1.heard transcript cap =>
    let s1 := { s with lastResponse := uiIHeard cfg.lang transcript }
    match resolveVoiceCommand transcript with
    | some task =>
      let p := taskSelectV1 cfg s1 task cap
      ({ p.1 with isListening := false }, p.2)
    | none =>
      let s2 := { s1 with lastResponse := uiUnrecognizedMsg cfg.lang }
      let p := speakFFV1 s2 (uiUnrecognizedMsg cfg.lang) cfg.lang
      ({ p.1 with isListening := false }, p.2)
  | EvV1.analysisDone result =>
    match s.phase with
    | PhaseV1.analyzing _ =>
      let s1 := { s with lastResponse := result }
      let p := speakFFV1 s1 result cfg.lang
      ({ p.1 with isProcessing := none, phase := PhaseV1.idle }, p.2)
    | PhaseV1.idle => (s, [])
  | EvV1.speakEnd => ({ s with isSpeaking := false }, [])
  | EvV1.speechError msg =>
    let s1 := { s with error := msg, lastResponse := msg }
    speakFFV1 s1 msg cfg.lang

def runV1 (cfg : ConfigV1) : StV1 → List EvV1 → StV1 × List Act
  | s, [] => (s, [])
  | s, e :: es =>
    ((runV1 cfg (stepV1 cfg s e).1 es).1,
      (stepV1 cfg s e).2 ++ (runV1 cfg (stepV1 cfg s e).1 es).2)

/-! ## Orchestrator, documented `App.tsx` variant (V2)

`phase` records the suspension point of the in-flight async flow:
`analyzing` = suspended at `await analyzeImageWithGemini` inside
`runAnalysis`; `speakingResult` = suspended at `await speak(result)` at the
end of `runAnalysis`; `shopPrompt` = suspended at `await speak(shopPrompt)`
inside `handleTaskClick`.  `activeTask` mirrors `activeTaskRef.current`.
The status-bar effect (ready/listening text) is folded into the transitions
that change the flags it reads. -/

structure ConfigV2 where
  lang : Lang
  isMockMode : Bool
  location : Option (String × String)
deriving DecidableEq, Repr

inductive PhaseV2
  | idle
  | analyzing (task : ATask)
  | speakingResult (task : ATask)
  | shopPrompt
deriving DecidableEq, Repr

structure StV2 where
  isProcessing : Option ATask
  isSpeaking : Bool
  isListening : Bool
  statusMessage : String
  activeTask : Option ATask
  phase : PhaseV2
deriving DecidableEq, Repr

def initV2 : StV2 :=
  { isProcessing := none, isSpeaking := false, isListening := false,
    statusMessage := statusInitializingV2 Lang.enUS, activeTask := none,
    phase := PhaseV2.idle }

/-- The prompt composed by `runAnalysis`: the task prompt, plus the user
query sentence for a FindShop sub-dialog answer, plus the GPS sentence when a
location fix is available.  Coordinates are carried as already-rendered
strings. -/
def promptV2 (cfg : ConfigV2) (task : ATask) (userQuery : Option String) : String :=
  let p := taskPrompt task
  let p :=
    if task = ATask.findShop && jsTruthyOpt userQuery then
      p ++ " The user is looking for: \"" ++ userQuery.getD "" ++ "\"."
    else p
  match cfg.location with
  | some (lat, lng) =>
    p ++ " Current GPS coordinates are Latitude: " ++ lat ++ ", Longitude: " ++ lng ++ "."
  | none => p

/-- `runAnalysis(task, userQuery)` up to its first suspension point: set the
processing status and flag, capture a frame; on falsy capture show and speak
`Failed to capture image.` (fire-and-forget) and reset; otherwise dispatch
the analysis and suspend. -/
def runAnalysisV2 (cfg : ConfigV2) (s : StV2) (task : ATask) (userQuery : Option String)
    (cap : Option String) : StV2 × List Act :=
  let s1 := { s with statusMessage := statusProcessingV2 cfg.lang, isProcessing := some task }
  match cap with
  | none =>
    ({ s1 with
        statusMessage := "Failed to capture image."
        isSpeaking := true
        isProcessing := none
        phase := PhaseV2.idle },
      [Act.speakCall "Failed to capture image." cfg.lang.code])
  | some img =>
    ({ s1 with phase := PhaseV2.analyzing task },
      [Act.analyzeCall img (promptV2 cfg task userQuery) task cfg.isMockMode])

inductive EvV2
  | click (task : ATask) (cap : Option String)
  | analysisDone (result : String)
  | speakDone
  | heard (transcript : String) (cap : Option String)
deriving DecidableEq, Repr

/-- One orchestrator step of the documented variant.

* `click`: `handleTaskClick(task)` — guarded no-op while
  `isProcessing || isSpeaking || isListening`; FindShop speaks the shop
  prompt and suspends awaiting its completion; other tasks run
  `runAnalysis`.
* `analysisDone`: the awaited analysis resolves with `result`; `runAnalysis`
  resumes: show the result, `await speak(result)`.  An empty result makes
  `speak` reject, aborting `runAnalysis` before `setIsProcessing(null)`.
* `speakDone`: the awaited utterance completes.  After the result speech,
  `isProcessing` resets (status effect shows ready); after the shop prompt,
  `startListening()` runs — unless already listening, its guard makes it a
  no-op.  A fire-and-forget utterance completing only clears `isSpeaking`.
* `heard`: `handleSpeechResult(transcript)` — when `activeTaskRef` is set,
  run the deferred FindShop analysis with the transcript as user query. -/
def stepV2 (cfg : ConfigV2) (s : StV2) : EvV2 → StV2 × List Act
  | EvV2.click task cap =>
    if s.isProcessing.isSome || s.isSpeaking || s.isListening then (s, [])
    else if task = ATask.findShop then
      ({ s with
          activeTask := some ATask.findShop
          statusMessage := shopPromptV2 cfg.lang
          isSpeaking := true
          phase := PhaseV2.shopPrompt },
        [Act.speakCall (shopPromptV2 cfg.lang) cfg.lang.code])
    else runAnalysisV2 cfg s task none cap
  | EvV2.analysisDone result =>
    match s.phase with
    | PhaseV2.analyzing task =>
      if result = "" then
        ({ s with statusMessage := result, phase := PhaseV2.idle }, [])
      else
        ({ s with
            statusMessage := result
            isSpeaking := true
            phase := PhaseV2.speakingResult task },
          [Act.speakCall result cfg.lang.code])
    | _ => (s, [])
  | EvV2.speakDone =>
    if s.isSpeaking = false then (s, [])
    else
      match s.phase with
      | PhaseV2.speakingResult _ =>
        ({ s with
            isSpeaking := false
            isProcessing := none
            phase := PhaseV2.idle
            statusMessage := statusReadyV2 cfg.lang }, [Act.speakFinished])
      | PhaseV2.shopPrompt =>
        if s.isListening then
          ({ s with isSpeaking := false, phase := PhaseV2.idle }, [Act.speakFinished])
        else
          ({ s with
              isSpeaking := false
              isListening := true
              phase := PhaseV2.idle
              statusMessage := statusListeningV2 cfg.lang },
            [Act.speakFinished, Act.listenStart])
      | _ => ({ s with isSpeaking := false }, [Act.speakFinished])
  | EvV2.heard transcript cap =>
    match s.activeTask with
    | some task =>
      let p := runAnalysisV2 cfg { s with activeTask := none } task (some transcript) cap
      ({ p.1 with isListening := false }, p.2)
    | none => ({ s with isListening := false }, [])

def runV2 (cfg : ConfigV2) : StV2 → List EvV2 → StV2 × List Act
  | s, [] => (s, [])
  | s, e :: es =>
    ((runV2 cfg (stepV2 cfg s e).1 es).1,
      (stepV2 cfg s e).2 ++ (runV2 cfg (stepV2 cfg s e).1 es).2)

/-! ## Trace scanner for the FindShop speak-then-listen ordering

`shopOrderOk` walks an action trace left to right, tracking whether the shop
prompt has been spoken (`promptSpoken`) and whether the immediately
preceding action was a speech-completion signal (`justFinished`); every
`listenStart` must see both flags true: the prompt was spoken earlier and a
completion signal fired directly before listening starts. -/

def shopStep (lang : Lang) : Bool × Bool → Act → Bool × Bool
  | (ps, _), Act.speakCall t c => (ps || (t == shopPromptV2 lang && c == lang.code), false)
  | (ps, _), Act.speakFinished => (ps, true)
  | (ps, _), Act.listenStart => (ps, false)
  | (ps, _), Act.analyzeCall _ _ _ _ => (ps, false)

def shopScan (lang : Lang) (st : Bool × Bool) (l : List Act) : Bool × Bool :=
  l.foldl (shopStep lang) st

def shopOrderOk (lang : Lang) (st : Bool × Bool) : List Act → Bool
  | [] => true
  | a :: rest =>
    (match a with
     | Act.listenStart => st.1 && st.2
     | _ => true) && shopOrderOk lang (shopStep lang st a) rest

/-! ## Concrete fixtures used by the claim theorems -/

/-- An English, mock-mode-on V2 configuration without a location fix. -/
def cfgMockEn : ConfigV2 := { lang := Lang.enUS, isMockMode := true, location := none }

/-- An English, mock-mode-off V1 configuration. -/
def cfgV1en : ConfigV1 := { lang := Lang.enUS, isMockMode := false }

/-- An English, mock-mode-on V1 configuration. -/
def cfgV1enMock : ConfigV1 := { lang := Lang.enUS, isMockMode := true }

/-- A V2 state that is busy because speech output is in progress. -/
def busyV2 : StV2 := { initV2 with isSpeaking := true }

/-- A V1 state that is busy because speech output is in progress. -/
def busyV1 : StV1 := { initV1 with isSpeaking := true }

/-- An environment in which any actual network/SDK use would be observable:
both oracles return sentinel outcomes. -/
def envNoNet : GeminiEnv where
  isDev := false
  viteApiKey := none
  clientCall := fun _ _ _ => Except.error { isError := true, msg := "unused" }
  fetchFn := fun _ _ => FetchOutcome.networkFailure true "unused"

/-- The exact string `analyzeImageWithGemini` resolves with for FindBus in
mock mode. -/
def mockBusText : String := "(Mock Response) " ++ mockResponses ATask.findBus

/-- The user-facing message produced by `useSpeechRecognition` for the benign
`no-speech` recognition error. -/
def recogErrNoSpeech : String :=
  "Speech recognition error: no-speech. Please ensure microphone access is granted."

/-- The V1 session state after a speech-recognition error has been surfaced
and its spoken announcement has finished: all busy flags are down again, but
`error` still holds the message. -/
def c4ErrState : StV1 :=
  (runV1 cfgV1en initV1 [EvV1.speechError recogErrNoSpeech, EvV1.speakEnd]).1

/-- The V2 event sequence driving one full Explore analysis in mock mode up
to the point where the result is being spoken: tap Explore (capture
succeeds), then the analysis promise resolves with the mock Explore text. -/
def evsOverlap : List EvV2 :=
  [EvV2.click ATask.explore (some "img"), EvV2.analysisDone (getMockResponse ATask.explore)]

/-! ## Supporting lemmas -/

theorem containsSeq_iff (pat l : List Char) : containsSeq pat l = true ↔ pat <:+: l := by
  induction l with
  | nil =>
    simp [containsSeq, List.isEmpty_iff]
  | cons c rest ih =>
    simp [containsSeq, List.infix_cons_iff, ih]

theorem infixRev {p l : List Char} (h : p <:+: l) : p.reverse <:+: l.reverse := by
  obtain ⟨s, t, rfl⟩ := h
  exact ⟨t.reverse, s.reverse, by simp⟩

theorem infixRevIff (p l : List Char) : p.reverse <:+: l.reverse ↔ p <:+: l := by
  constructor
  · intro h
    have h2 := infixRev h
    simpa using h2
  · exact infixRev

theorem infix_dropWhile_iff (q : Char → Bool) (p l : List Char) (hp : p ≠ [])
    (hq : ∀ c ∈ p, q c = false) : p <:+: l.dropWhile q ↔ p <:+: l := by
  constructor
  · intro h
    exact h.trans (List.dropWhile_suffix q).isInfix
  · intro h
    induction l with
    | nil => simpa using h
    | cons c rest ih =>
      by_cases hc : q c
      · rw [List.dropWhile_cons, if_pos hc]
        rcases List.infix_cons_iff.mp h with hpre | hinf
        · obtain ⟨r, hr⟩ := hpre
          cases p with
          | nil => exact absurd rfl hp
          | cons a p' =>
            have ha : a = c := by
              have := hr
              simp at this
              exact this.1
            have : q a = false := hq a (by simp)
            rw [ha] at this
            rw [this] at hc
            exact absurd hc (by simp)
        · exact ih hinf
      · rw [List.dropWhile_cons, if_neg hc]
        exact h

theorem infix_trim_iff (p l : List Char) (hp : p ≠ [])
    (hq : ∀ c ∈ p, wsChar c = false) : p <:+: trimChars l ↔ p <:+: l := by
  have hrevne : p.reverse ≠ [] := by simpa using hp
  have hrevq : ∀ c ∈ p.reverse, wsChar c = false := by
    intro c hc
    exact hq c (List.mem_reverse.mp hc)
  unfold trimChars
  rw [show p <:+: ((l.dropWhile wsChar).reverse.dropWhile wsChar).reverse ↔
        p.reverse <:+: (l.dropWhile wsChar).reverse.dropWhile wsChar by
      constructor
      · intro h
        have h2 := infixRev h
        simpa using h2
      · intro h
        have h2 := infixRev h
        simpa using h2]
  rw [infix_dropWhile_iff wsChar p.reverse _ hrevne hrevq]
  rw [infixRevIff]
  exact infix_dropWhile_iff wsChar p l hp hq

theorem containsSeq_trim (p l : List Char) (hp : p ≠ [])
    (hq : ∀ c ∈ p, wsChar c = false) :
    containsSeq p (trimChars l) = containsSeq p l := by
  have h1 := containsSeq_iff p (trimChars l)
  have h2 := containsSeq_iff p l
  rw [infix_trim_iff p l hp hq] at h1
  cases hb : containsSeq p l with
  | true => exact h1.mpr (h2.mp hb)
  | false =>
    cases hc : containsSeq p (trimChars l) with
    | true =>
      rw [hb] at h2
      exact absurd (h2.mpr (h1.mp hc)) (by simp)
    | false => rfl

theorem matchVoiceRules_trim (l : List Char) :
    matchVoiceRules (trimChars l) = matchVoiceRules l := by
  unfold matchVoiceRules
  rw [containsSeq_trim "bus".toList l (by decide) (by decide),
    containsSeq_trim "cross".toList l (by decide) (by decide),
    containsSeq_trim "road".toList l (by decide) (by decide),
    containsSeq_trim "explore".toList l (by decide) (by decide),
    containsSeq_trim "around".toList l (by decide) (by decide),
    containsSeq_trim "shop".toList l (by decide) (by decide),
    containsSeq_trim "store".toList l (by decide) (by decide)]

/-- Responses of the intermediary are well formed: whenever the status is ok
(2xx, in fact exactly 200), the body carries a non-empty `text` field. -/
theorem handlerModel_ok_text (method : String) (body : HandlerBody)
    (gen : Except Exn GenResponse) :
    respOk (handlerModel method body gen).1 = true →
    ∃ t, (handlerModel method body gen).2.2 = some t ∧ t ≠ "" := by
  unfold handlerModel
  by_cases hm : (method != "POST") = true
  · simp [hm, respOk]
  · simp only [hm]
    simp only [Bool.false_eq_true, if_false]
    cases body with
    | malformed pErr pMsg => simp [respOk]
    | fields img prompt =>
      by_cases hf : (!jsTruthyOpt img || !jsTruthyOpt prompt) = true
      · simp [hf, respOk]
      · simp only [hf]
        simp only [Bool.false_eq_true, if_false]
        cases gen with
        | error e => simp [respOk]
        | ok resp =>
          cases htext : resp.text with
          | none => simp [htext, respOk]
          | some t =>
            by_cases ht : t = ""
            · simp [htext, ht, respOk]
            · simp [htext, ht, respOk]

/-- The outcome assembled from an intermediary response is well formed. -/
theorem handlerModel_wellFormed (method : String) (body : HandlerBody)
    (gen : Except Exn GenResponse) :
    fetch200HasText (FetchOutcome.got (handlerModel method body gen).1
      (JsonBody.parsed (handlerModel method body gen).2.1
        (handlerModel method body gen).2.2)) = true := by
  unfold fetch200HasText
  by_cases h : respOk (handlerModel method body gen).1 = true
  · obtain ⟨t, ht, -⟩ := handlerModel_ok_text method body gen h
    simp [h, ht]
  · simp [Bool.not_eq_true] at h
    simp [h]

theorem shopOrderOk_append (lang : Lang) (st : Bool × Bool) (xs ys : List Act) :
    shopOrderOk lang st (xs ++ ys) =
      (shopOrderOk lang st xs && shopOrderOk lang (shopScan lang st xs) ys) := by
  induction xs generalizing st with
  | nil => simp [shopOrderOk, shopScan]
  | cons a xs ih =>
    simp [shopOrderOk, shopScan, ih, Bool.and_assoc]

theorem stepV2_shopOk (cfg : ConfigV2) (s : StV2) (e : EvV2) (ps jd : Bool)
    (hInv : s.phase = PhaseV2.shopPrompt → ps = true) :
    shopOrderOk cfg.lang (ps, jd) (stepV2 cfg s e).2 = true
    ∧ ((stepV2 cfg s e).1.phase = PhaseV2.shopPrompt →
        (shopScan cfg.lang (ps, jd) (stepV2 cfg s e).2).1 = true) := by
  cases e with
  | click task cap =>
    by_cases hb : (s.isProcessing.isSome || s.isSpeaking || s.isListening) = true
    · simp only [stepV2, hb, if_true]
      exact ⟨rfl, fun h => hInv h⟩
    · by_cases ht : task = ATask.findShop
      · simp [stepV2, hb, ht, shopOrderOk, shopScan, shopStep]
      · cases cap with
        | none => simp [stepV2, hb, ht, runAnalysisV2, shopOrderOk, shopScan, shopStep]
        | some img => simp [stepV2, hb, ht, runAnalysisV2, shopOrderOk, shopScan, shopStep]
  | analysisDone result =>
    cases hph : s.phase with
    | idle => simp [stepV2, hph, shopOrderOk]
    | analyzing task =>
      by_cases hr : result = ""
      · simp [stepV2, hph, hr, shopOrderOk, shopScan]
      · simp [stepV2, hph, hr, shopOrderOk, shopScan, shopStep]
    | speakingResult task => simp [stepV2, hph, shopOrderOk]
    | shopPrompt =>
      simp only [stepV2, hph]
      exact ⟨rfl, fun _ => hInv hph⟩
  | speakDone =>
    by_cases hsp : s.isSpeaking = false
    · simp only [stepV2, hsp, if_true]
      exact ⟨rfl, fun h => hInv h⟩
    · cases hph : s.phase with
      | idle => simp [stepV2, hsp, hph, shopOrderOk, shopScan, shopStep]
      | analyzing task => simp [stepV2, hsp, hph, shopOrderOk, shopScan, shopStep]
      | speakingResult task => simp [stepV2, hsp, hph, shopOrderOk, shopScan, shopStep]
      | shopPrompt =>
        have hps : ps = true := hInv hph
        by_cases hl : s.isListening = true
        · simp [stepV2, hsp, hph, hl, shopOrderOk, shopScan, shopStep]
        · simp [stepV2, hsp, hph, hl, hps, shopOrderOk, shopScan, shopStep]
  | heard transcript cap =>
    cases hat : s.activeTask with
    | none =>
      simp only [stepV2, hat]
      exact ⟨rfl, fun h => hInv h⟩
    | some task =>
      cases cap with
      | none => simp [stepV2, hat, runAnalysisV2, shopOrderOk, shopScan, shopStep]
      | some img => simp [stepV2, hat, runAnalysisV2, shopOrderOk, shopScan, shopStep]

theorem runV2_shopOk (cfg : ConfigV2) (es : List EvV2) :
    ∀ (s : StV2) (ps jd : Bool), (s.phase = PhaseV2.shopPrompt → ps = true) →
      shopOrderOk cfg.lang (ps, jd) (runV2 cfg s es).2 = true := by
  induction es with
  | nil => intro s ps jd _; simp [runV2, shopOrderOk]
  | cons e es ih =>
    intro s ps jd hInv
    have h := stepV2_shopOk cfg s e ps jd hInv
    show shopOrderOk cfg.lang (ps, jd)
      ((stepV2 cfg s e).2 ++ (runV2 cfg (stepV2 cfg s e).1 es).2) = true
    rw [shopOrderOk_append, h.1, Bool.true_and]
    have h2 := ih (stepV2 cfg s e).1 (shopScan cfg.lang (ps, jd) (stepV2 cfg s e).2).1
      (shopScan cfg.lang (ps, jd) (stepV2 cfg s e).2).2 h.2
    simpa using h2

/-! ## Claim theorems -/

set_option maxRecDepth 8000

/-- C5: voice command resolution.  The code's resolver (case-fold, ordered
substring rules Bus, Cross, Explore, Shop, first match wins, `none` on no
match) coincides with the spec's description including the trim step (trim
cannot change containment of the whitespace-free keywords); the three spec
examples hold; and an unrecognized transcript makes `handleVoiceCommand` set
and speak the locale's unrecognized-command string. -/
theorem voiceResolution_matches_spec :
    (∀ cmd : String, resolveVoiceCommandSpec cmd = resolveVoiceCommand cmd)
    ∧ resolveVoiceCommand "I want to find a bus" = some ATask.findBus
    ∧ resolveVoiceCommand "help me cross this road" = some ATask.crossRoad
    ∧ resolveVoiceCommand "xyz" = none
    ∧ (stepV1 cfgV1en initV1 (EvV1.heard "xyz" none)).2 =
        [Act.speakCall (uiUnrecognizedMsg Lang.enUS) "en-US"]
    ∧ (stepV1 cfgV1en initV1 (EvV1.heard "xyz" none)).1.lastResponse =
        uiUnrecognizedMsg Lang.enUS := by
  refine ⟨fun cmd => matchVoiceRules_trim _, ?_, ?_, ?_, ?_, ?_⟩
  · decide
  · decide
  · decide
  · rfl
  · rfl

/-- C3: strategy selection determinism.  `analyzeImageWithGemini` dispatches
exactly along `selectStrategy`, a pure function of
(mock flag, dev context, credential presence); in particular a true mock
flag always selects the mock strategy. -/
theorem strategySelection_deterministic :
    (∀ (env : GeminiEnv) (img prompt : String) (task : ATask) (mock : Bool),
      analyzeImageWithGemini env img prompt task mock =
        match selectStrategy mock env.isDev env.viteApiKey with
        | Strategy.mock => Except.ok (some (getMockResponse task))
        | Strategy.direct =>
          callApiFromClient (env.clientCall img prompt (env.viteApiKey.getD ""))
        | Strategy.proxied => callApiFromServerless (env.fetchFn img prompt))
    ∧ (∀ (isDev : Bool) (key : Option String), selectStrategy true isDev key = Strategy.mock) := by
  constructor
  · intro env img prompt task mock
    cases mock with
    | true => rfl
    | false =>
      cases hd : env.isDev with
      | false => simp [analyzeImageWithGemini, selectStrategy, hd]
      | true =>
        cases hk : jsTruthyOpt env.viteApiKey with
        | true => simp [analyzeImageWithGemini, selectStrategy, hd, hk]
        | false => simp [analyzeImageWithGemini, selectStrategy, hd, hk]
  · intro isDev key
    rfl

/-- C1 counterexample: the busy sub-states are not pairwise exclusive.  After
tapping Explore and receiving the analysis result, the orchestrator speaks
the result while `isProcessing` is still set (it is only cleared after the
result speech completes), so "processing" and "speaking" hold at the same
instant in a reachable state. -/
theorem busyFlags_overlap_counter :
    (runV2 cfgMockEn initV2 evsOverlap).1.isProcessing = some ATask.explore
    ∧ (runV2 cfgMockEn initV2 evsOverlap).1.isSpeaking = true := by
  exact ⟨rfl, rfl⟩

/-- C1 amended: what the guards do enforce.  `handleTaskClick` (documented
variant) is a no-op whenever processing, speaking or listening is in
progress; `handleTaskSelect` (plain variant) is a no-op whenever processing
or speaking is in progress (its own guard does not include listening), and
the plain variant's button-level guard `anyActionInProgress` additionally
covers listening, errors and the settings modal.  Mutual exclusion holds
between separately triggered actions, not between the busy sub-states of one
action (processing and speaking overlap, see the counterexample). -/
theorem taskSelection_guard_noop :
    (∀ (cfg : ConfigV2) (s : StV2) (task : ATask) (cap : Option String),
      (s.isProcessing.isSome || s.isSpeaking || s.isListening) = true →
      stepV2 cfg s (EvV2.click task cap) = (s, []))
    ∧ (∀ (cfg : ConfigV1) (s : StV1) (task : ATask) (cap : Option String),
      (s.isProcessing.isSome || s.isSpeaking) = true →
      taskSelectV1 cfg s task cap = (s, []))
    ∧ (∀ (cfg : ConfigV1) (s : StV1) (task : ATask) (cap : Option String),
      anyActionInProgressV1 s = true →
      stepV1 cfg s (EvV1.buttonClick task cap) = (s, [])) := by
  refine ⟨?_, ?_, ?_⟩ <;> intro cfg s task cap h <;> simp [stepV1, stepV2, taskSelectV1, h]

theorem taskSelection_guard_noop_check :
    stepV2 cfgMockEn busyV2 (EvV2.click ATask.explore none) = (busyV2, [])
    ∧ taskSelectV1 cfgV1en busyV1 ATask.explore none = (busyV1, [])
    ∧ stepV1 cfgV1en busyV1 (EvV1.buttonClick ATask.explore none) = (busyV1, []) :=
  ⟨taskSelection_guard_noop.1 cfgMockEn busyV2 ATask.explore none (by decide),
   taskSelection_guard_noop.2.1 cfgV1en busyV1 ATask.explore none (by decide),
   taskSelection_guard_noop.2.2 cfgV1en busyV1 ATask.explore none (by decide)⟩

/-- C2: FindShop sub-dialog ordering.  Selecting FindShop from a non-busy
state invokes `speak` with the locale's shop prompt (and does not start
listening); and over every event sequence from the initial state, every
`startListening` invocation in the emitted action trace is immediately
preceded by a speech-completion signal and preceded somewhere earlier by the
`speak(shopPrompt)` call — listening never starts before or concurrently
with the prompt's completion. -/
theorem findShop_speak_then_listen :
    (∀ (cfg : ConfigV2) (s : StV2) (cap : Option String),
      s.isProcessing = none → s.isSpeaking = false → s.isListening = false →
      stepV2 cfg s (EvV2.click ATask.findShop cap) =
        ({ s with
            activeTask := some ATask.findShop
            statusMessage := shopPromptV2 cfg.lang
            isSpeaking := true
            phase := PhaseV2.shopPrompt },
          [Act.speakCall (shopPromptV2 cfg.lang) cfg.lang.code]))
    ∧ (∀ (cfg : ConfigV2) (es : List EvV2),
        shopOrderOk cfg.lang (false, false) (runV2 cfg initV2 es).2 = true) := by
  constructor
  · intro cfg s cap h1 h2 h3
    simp [stepV2, h1, h2, h3]
  · intro cfg es
    exact runV2_shopOk cfg es initV2 false false (by decide)

theorem findShop_speak_then_listen_check :
    stepV2 cfgMockEn initV2 (EvV2.click ATask.findShop none) =
      ({ initV2 with
          activeTask := some ATask.findShop
          statusMessage := shopPromptV2 Lang.enUS
          isSpeaking := true
          phase := PhaseV2.shopPrompt },
        [Act.speakCall (shopPromptV2 Lang.enUS) "en-US"]) :=
  findShop_speak_then_listen.1 cfgMockEn initV2 none rfl rfl rfl

/-- C4: after a provider error the busy flags do return to idle and the
error is surfaced as status text and speech — but the plain variant's
`anyActionInProgress` counts a non-empty `error` as an action in progress,
so every `ActionButton` (and the voice control) stays disabled and a
subsequent Explore tap is a no-op; nothing outside `handleTaskSelect`
(unreachable from the disabled UI) ever clears `error`, so task selection
stays disabled.  This evaluates the code at the failing input of the
claim. -/
theorem errorState_blocks_taskSelection :
    (runV1 cfgV1en initV1 [EvV1.speechError recogErrNoSpeech, EvV1.speakEnd]).2 =
      [Act.speakCall recogErrNoSpeech "en-US"]
    ∧ c4ErrState.isProcessing = none
    ∧ c4ErrState.isSpeaking = false
    ∧ c4ErrState.isListening = false
    ∧ c4ErrState.error = recogErrNoSpeech
    ∧ anyActionInProgressV1 c4ErrState = true
    ∧ stepV1 cfgV1en c4ErrState (EvV1.buttonClick ATask.explore (some "img")) =
        (c4ErrState, []) := by
  exact ⟨rfl, rfl, rfl, rfl, rfl, rfl, rfl⟩

/-- C6 counterexample: the proxied strategy does not map HTTP statuses to
distinct strings.  A 503 response and a 401 response with the same body
produce the identical user-facing string — the generic
server-communication message, which mentions neither "service unavailable"
nor "not authorized". -/
theorem proxiedStatusMapping_counter :
    callApiFromServerless (FetchOutcome.got 503 (JsonBody.parsed (some "Upstream exploded") none)) =
      callApiFromServerless (FetchOutcome.got 401 (JsonBody.parsed (some "Upstream exploded") none))
    ∧ callApiFromServerless (FetchOutcome.got 503 (JsonBody.parsed (some "Upstream exploded") none)) =
        Except.ok (some (serverCommHead ++ "Upstream exploded")) := by
  exact ⟨rfl, rfl⟩

/-- C6 amended: the proxied call validates only `response.ok`; every non-ok
status (5xx and 401/403 alike) maps to the single generic string
`An error occurred while communicating with the server: <error field, or a
fetch-failure fallback>`; a network failure maps to the same generic head
with the exception message; a malformed or empty body (JSON parse throw)
yields the same non-throwing fallback text.  All branches resolve, never
throw. -/
theorem proxiedErrorMapping :
    (∀ (st : Nat) (errF textF : Option String), respOk st = false →
      callApiFromServerless (FetchOutcome.got st (JsonBody.parsed errF textF)) =
        Except.ok (some (serverCommHead ++
          jsOrDefault errF "Failed to fetch from serverless function.")))
    ∧ (∀ (isErr : Bool) (m : String),
        callApiFromServerless (FetchOutcome.networkFailure isErr m) =
          Except.ok (some (serverCommHead ++ exnDisplay isErr m)))
    ∧ (∀ (st : Nat) (pErr : Bool) (pMsg : String),
        callApiFromServerless (FetchOutcome.got st (JsonBody.malformed pErr pMsg)) =
          Except.ok (some (serverCommHead ++ exnDisplay pErr pMsg))) := by
  refine ⟨?_, ?_, ?_⟩
  · intro st errF textF h
    simp [callApiFromServerless, h]
  · intro isErr m
    rfl
  · intro st pErr pMsg
    rfl

theorem proxiedErrorMapping_check :
    callApiFromServerless (FetchOutcome.got 500 (JsonBody.parsed (some "boom") none)) =
      Except.ok (some (serverCommHead ++ "boom"))
    ∧ callApiFromServerless (FetchOutcome.networkFailure true "net down") =
        Except.ok (some (serverCommHead ++ "net down"))
    ∧ callApiFromServerless (FetchOutcome.got 200 (JsonBody.malformed true "Unexpected end of JSON input")) =
        Except.ok (some (serverCommHead ++ "Unexpected end of JSON input")) :=
  ⟨proxiedErrorMapping.1 500 (some "boom") none (by decide),
   proxiedErrorMapping.2.1 true "net down",
   proxiedErrorMapping.2.2 200 true "Unexpected end of JSON input"⟩

/-- C7 counterexample: in mock mode the analysis does not return the mock
FindBus string itself — it returns that string with the `(Mock Response) `
marker prefixed. -/
theorem mockFindBus_prefix_counter :
    analyzeImageWithGemini envNoNet "" "p" ATask.findBus true ≠
      Except.ok (some (mockResponses ATask.findBus)) := by
  intro h
  have h2 : ("(Mock Response) " ++ mockResponses ATask.findBus) = mockResponses ATask.findBus := by
    simpa [analyzeImageWithGemini, getMockResponse] using h
  exact absurd h2 (by decide)

/-- C7 amended: with mock mode on and task FindBus, `analyzeImageWithGemini`
resolves — for every environment, hence without consulting the network or
the SDK oracle — with exactly `(Mock Response) I see bus number 123 …`, and
the orchestrator invokes SpeechOutput with exactly that returned string and
the active locale code. -/
theorem mockFindBus_endToEnd :
    (∀ (env : GeminiEnv) (img prompt : String),
      analyzeImageWithGemini env img prompt ATask.findBus true = Except.ok (some mockBusText))
    ∧ (runV1 cfgV1enMock initV1
        [EvV1.buttonClick ATask.findBus (some "img"), EvV1.analysisDone mockBusText]).2 =
      [Act.speakCall (uiAnalyzing Lang.enUS (taskLabel Lang.enUS ATask.findBus)) "en-US",
       Act.analyzeCall "img" (promptV1 cfgV1enMock ATask.findBus) ATask.findBus true,
       Act.speakCall mockBusText "en-US"] := by
  constructor
  · intro env img prompt
    rfl
  · rfl

/-- C8: AnalysisClient totality.  For every input and strategy branch,
`analyzeImageWithGemini` resolves (`Except.ok`) with a displayable string —
assuming only that the proxied intermediary's 200-responses carry a `text`
field, which `handlerModel_ok_text` establishes for the actual
intermediary.  In the direct strategy, a thrown `Error` mentioning `API key`
or `permission` yields the distinct invalid-credential message (different
from the generic failure message), and an empty/absent model response yields
the non-throwing fallback text. -/
theorem analysisClient_totality :
    (∀ (env : GeminiEnv) (img prompt : String) (task : ATask) (mock : Bool),
      fetch200HasText (env.fetchFn img prompt) = true →
      ∃ s : String, analyzeImageWithGemini env img prompt task mock = Except.ok (some s))
    ∧ (∀ e : Exn, e.isError = true →
        (jsIncludes e.msg "API key" || jsIncludes e.msg "permission") = true →
        callApiFromClient (Except.error e) = Except.ok (some invalidKeyMsg))
    ∧ invalidKeyMsg ≠ genericClientErrMsg
    ∧ (∀ t : Option String, jsTruthyOpt t = false →
        callApiFromClient (Except.ok { text := t }) = Except.ok (some emptyRespMsg)) := by
  refine ⟨?_, ?_, ?_, ?_⟩
  · intro env img prompt task mock hwf
    cases mock with
    | true => exact ⟨getMockResponse task, rfl⟩
    | false =>
      by_cases hdk : (env.isDev && jsTruthyOpt env.viteApiKey) = true
      · simp only [analyzeImageWithGemini, Bool.false_eq_true, if_false, hdk, if_true]
        cases hc : env.clientCall img prompt (env.viteApiKey.getD "") with
        | ok resp =>
          cases ht : resp.text with
          | none => exact ⟨emptyRespMsg, by simp [callApiFromClient, ht]⟩
          | some t =>
            by_cases hte : t = ""
            · exact ⟨emptyRespMsg, by simp [callApiFromClient, ht, hte]⟩
            · exact ⟨t, by simp [callApiFromClient, ht, hte]⟩
        | error e =>
          by_cases hce : (e.isError &&
              (jsIncludes e.msg "API key" || jsIncludes e.msg "permission")) = true
          · exact ⟨invalidKeyMsg, by simp [callApiFromClient, hce]⟩
          · exact ⟨genericClientErrMsg, by simp [callApiFromClient, hce]⟩
      · simp only [analyzeImageWithGemini, Bool.false_eq_true, if_false, hdk]
        cases hf : env.fetchFn img prompt with
        | networkFailure isErr m => exact ⟨_, rfl⟩
        | got st body =>
          cases body with
          | malformed pErr pMsg => exact ⟨_, rfl⟩
          | parsed errF textF =>
            by_cases hok : respOk st = true
            · rw [hf] at hwf
              simp only [fetch200HasText, hok, Bool.not_true, Bool.false_or] at hwf
              obtain ⟨t, ht⟩ := Option.isSome_iff_exists.mp hwf
              exact ⟨t, by simp [callApiFromServerless, hok, ht]⟩
            · exact ⟨serverCommHead ++ jsOrDefault errF "Failed to fetch from serverless function.",
                by simp [callApiFromServerless, hok]⟩
  · intro e h1 h2
    simp [callApiFromClient, h1, h2]
  · decide
  · intro t ht
    cases t with
    | none => rfl
    | some s =>
      have hs : s = "" := by simpa [jsTruthyOpt] using ht
      simp [callApiFromClient, hs]

theorem analysisClient_totality_check :
    (∃ s : String, analyzeImageWithGemini envNoNet "img" "p" ATask.explore false =
        Except.ok (some s))
    ∧ callApiFromClient (Except.error { isError := true, msg := "bad API key" }) =
        Except.ok (some invalidKeyMsg)
    ∧ callApiFromClient (Except.ok { text := none }) = Except.ok (some emptyRespMsg) :=
  ⟨analysisClient_totality.1 envNoNet "img" "p" ATask.explore false rfl,
   analysisClient_totality.2.1 { isError := true, msg := "bad API key" } rfl (by decide),
   analysisClient_totality.2.2.2 none rfl⟩

/-- C9 counterexample: not every `speak` call cancels the in-flight
utterance.  A call with empty text (or with synthesis unsupported) takes the
guard clause and rejects without calling `cancel()`: the previously
in-flight utterance stays current and receives no completion. -/
theorem speakGuard_skips_cancel_counter :
    ttsSpeak { supported := true, current := some 0 } "" 1 =
      ({ supported := true, current := some 0 }, SpeakCallRes.rejectedGuard, none)
    ∧ (ttsSpeak { supported := true, current := some 0 } "" 1).1.current = some 0 := by
  exact ⟨rfl, rfl⟩

/-- C9 amended: every `speak` call with non-empty text on a supported engine
first cancels any in-flight utterance — delivering it a non-error completion
(the `interrupted` error event resolves the promise) — and starts the new
utterance; a natural end resolves, an `interrupted` event resolves, and only
other error events reject with a reportable message. -/
theorem speakLastCallWins :
    (∀ (engine : TTS) (text : String) (uttId : Nat), engine.supported = true → text ≠ "" →
      (ttsSpeak engine text uttId).1.current = some uttId
      ∧ (ttsSpeak engine text uttId).2.1 = SpeakCallRes.started
      ∧ (ttsSpeak engine text uttId).2.2 = engine.current.map (fun _ => Except.ok ()))
    ∧ utteranceOutcome UttEvent.ended = Except.ok ()
    ∧ utteranceOutcome (UttEvent.errored "interrupted") = Except.ok ()
    ∧ (∀ e : String, e ≠ "interrupted" →
        utteranceOutcome (UttEvent.errored e) =
          Except.error ("Speech synthesis error: " ++ e)) := by
  refine ⟨?_, rfl, rfl, ?_⟩
  · intro engine text uttId hsup htext
    have h : (engine.supported = false || text = "") = False := by
      simp [hsup, htext]
    refine ⟨?_, ?_, ?_⟩ <;>
      · simp only [ttsSpeak, h]
        cases engine.current <;> simp [utteranceOutcome]
  · intro e he
    simp [utteranceOutcome, he]

theorem speakLastCallWins_check :
    ((ttsSpeak { supported := true, current := some 0 } "Hello" 1).1.current = some 1
      ∧ (ttsSpeak { supported := true, current := some 0 } "Hello" 1).2.1 = SpeakCallRes.started
      ∧ (ttsSpeak { supported := true, current := some 0 } "Hello" 1).2.2 =
          (some 0 : Option Nat).map (fun _ => Except.ok ()))
    ∧ utteranceOutcome (UttEvent.errored "audio-busy") =
        Except.error ("Speech synthesis error: " ++ "audio-busy") :=
  ⟨speakLastCallWins.1 { supported := true, current := some 0 } "Hello" 1 rfl (by decide),
   speakLastCallWins.2.2.2 "audio-busy" (by decide)⟩

/-- C10: mock mode bypasses capture failure.  With mock mode on, a null
`captureFrame()` result does not abort `handleTaskSelect`: the analysis is
dispatched with the empty image string and resolves with the canned mock
response regardless of the environment.  With mock mode off, the same null
capture aborts before any analysis dispatch — the capture-error message is
set and spoken, and `isProcessing` returns to idle with no `analyzeCall` in
the trace. -/
theorem mockMode_bypasses_captureFailure :
    (∀ (cfg : ConfigV1) (s : StV1) (task : ATask),
      cfg.isMockMode = true → s.isProcessing = none → s.isSpeaking = false →
      taskSelectV1 cfg s task none =
        ({ s with
            error := ""
            isProcessing := some task
            lastResponse := uiAnalyzing cfg.lang (taskLabel cfg.lang task)
            isSpeaking := true
            phase := PhaseV1.analyzing task },
          [Act.speakCall (uiAnalyzing cfg.lang (taskLabel cfg.lang task)) cfg.lang.code,
           Act.analyzeCall "" (promptV1 cfg task) task true]))
    ∧ (∀ (env : GeminiEnv) (prompt : String) (task : ATask),
        analyzeImageWithGemini env "" prompt task true =
          Except.ok (some ("(Mock Response) " ++ mockResponses task)))
    ∧ (∀ (cfg : ConfigV1) (s : StV1) (task : ATask),
      cfg.isMockMode = false → s.isProcessing = none → s.isSpeaking = false →
      taskSelectV1 cfg s task none =
        ({ s with
            error := captureErrMsgV1
            isProcessing := none
            lastResponse := captureErrMsgV1
            isSpeaking := true
            phase := PhaseV1.idle },
          [Act.speakCall (uiAnalyzing cfg.lang (taskLabel cfg.lang task)) cfg.lang.code,
           Act.speakCall captureErrMsgV1 cfg.lang.code])) := by
  refine ⟨?_, ?_, ?_⟩
  · intro cfg s task hm hp hs
    obtain ⟨lang, mock⟩ := cfg
    obtain ⟨sp, ss, sl, se, sr, so, sph⟩ := s
    simp only at hm hp hs
    subst hm hp hs
    cases lang <;> cases task <;> rfl
  · intro env prompt task
    rfl
  · intro cfg s task hm hp hs
    obtain ⟨lang, mock⟩ := cfg
    obtain ⟨sp, ss, sl, se, sr, so, sph⟩ := s
    simp only at hm hp hs
    subst hm hp hs
    cases lang <;> cases task <;> rfl

theorem mockMode_bypasses_captureFailure_check :
    taskSelectV1 cfgV1enMock initV1 ATask.findBus none =
      ({ initV1 with
          error := ""
          isProcessing := some ATask.findBus
          lastResponse := uiAnalyzing Lang.enUS (taskLabel Lang.enUS ATask.findBus)
          isSpeaking := true
          phase := PhaseV1.analyzing ATask.findBus },
        [Act.speakCall (uiAnalyzing Lang.enUS (taskLabel Lang.enUS ATask.findBus)) "en-US",
         Act.analyzeCall "" (promptV1 cfgV1enMock ATask.findBus) ATask.findBus true])
    ∧ analyzeImageWithGemini envNoNet "" "p" ATask.explore true =
        Except.ok (some ("(Mock Response) " ++ mockResponses ATask.explore))
    ∧ taskSelectV1 cfgV1en initV1 ATask.findBus none =
        ({ initV1 with
            error := captureErrMsgV1
            isProcessing := none
            lastResponse := captureErrMsgV1
            isSpeaking := true
            phase := PhaseV1.idle },
          [Act.speakCall (uiAnalyzing Lang.enUS (taskLabel Lang.enUS ATask.findBus)) "en-US",
           Act.speakCall captureErrMsgV1 "en-US"]) :=
  ⟨mockMode_bypasses_captureFailure.1 cfgV1enMock initV1 ATask.findBus rfl rfl rfl,
   mockMode_bypasses_captureFailure.2.1 envNoNet "p" ATask.explore,
   mockMode_bypasses_captureFailure.2.2 cfgV1en initV1 ATask.findBus rfl rfl rfl⟩
